import Mathlib

/-!
Verification of the asynchronous video-generation task orchestrator of the
motork-ai-videos-poc repository.

The definitions below are a shallow embedding of the JavaScript source:

* `extractVideoUrl`, `pollLoopGo`, `runBackground`, `handleGenerateVideo`
  embed the `POST /vehicle/:vehicleId/generate-video` handler of
  `src/server.js` (lines 477-899): the no-images check, the task record,
  the Runway submission, the polling loop with its inner try/catch, the
  URL-shortening step, the completion update, the vehicle-update retry
  loop and the outer failure handler.
* `shortenUrl` embeds `shortenUrl` of `src/services/url-shortener-service.js`.
* `createVideoTask`, `getTaskStatus` embed the same-named functions of
  `src/services/task-service.js`.
* `applyUpdate` embeds `updateTask` together with its call of
  `saveTaskToHistory` from the task service variant that persists history
  (src/unnamed/part_005, lines 77-143); only the status-dependent
  behaviour matters for the history-count claims, so an update is
  modelled by its optional `status` field and the history file by a
  write counter.

External behaviour (the Runway API, the is.gd shortener, the vehicle
catalog API, the wall clock) is supplied through an `Env` record of
oracles, so every run of the pipeline is a computable function of the
oracles.
-/

/-- JS truthiness of an optional string field: a missing field and the
empty string are falsy, every other string is truthy. -/
def jsTruthy : Option String → Option String
  | some s => if s = "" then none else some s
  | none => none

/-- Shapes of the `output` value of a Runway task-status response, as
distinguished by the extraction chain in src/server.js lines 652-675:
an array of URL strings, an object with the optional fields
`urls.mp4`, `mp4`, `video`, `url`, a bare string, or anything else. -/
inductive RunwayOutput where
  | arr (elems : List String)
  | obj (urlsMp4 mp4 video url : Option String)
  | str (s : String)
  | null
deriving DecidableEq, Repr

/-- Embedding of the output-shape fallback chain of src/server.js lines
652-675: a non-empty array yields its first element; otherwise the
object fields `urls.mp4`, `mp4`, `video`, `url` are tried in that order
under JS truthiness; a bare string yields itself; everything else fails
(the code then throws `Video URL not found in completed task`). -/
def extractVideoUrl : RunwayOutput → Option String
  | .arr (x :: _) => some x
  | .arr [] => none
  | .obj urlsMp4 mp4 video url =>
    match jsTruthy urlsMp4 with
    | some s => some s
    | none =>
      match jsTruthy mp4 with
      | some s => some s
      | none =>
        match jsTruthy video with
        | some s => some s
        | none =>
          match jsTruthy url with
          | some s => some s
          | none => none
  | .str s => some s
  | .null => none

/-- ASCII upper-casing of one character (the Runway status vocabulary is
ASCII, so this matches the JS `toUpperCase`). -/
def upperChar (c : Char) : Char :=
  if c.isLower then Char.ofNat (c.toNat - 32) else c

/-- ASCII upper-casing of a string, written over the character list so
that it reduces inside the kernel. -/
def toUpperAscii (s : String) : String :=
  String.mk (s.data.map upperChar)

/-- Embedding of src/server.js line 634: the raw status string is
upper-cased, and a missing or empty status becomes `UNKNOWN`. -/
def normalizeStatus : Option String → String
  | some s => if s = "" then "UNKNOWN" else toUpperAscii s
  | none => "UNKNOWN"

/-- Success statuses recognised by src/server.js line 641. -/
def isSuccessStatus (s : String) : Bool :=
  s = "SUCCEEDED" || s = "SUCCESS" || s = "COMPLETED"

/-- Failure statuses recognised by src/server.js line 678. -/
def isFailureStatus (s : String) : Bool :=
  s = "FAILED" || s = "ERROR"

/-- Outcome of one `runway.tasks.retrieve` call: either a response
carrying the optional raw status, optional error message and output
value, or a thrown error (network failure etc.). -/
inductive PollOutcome where
  | ok (status : Option String) (error : Option String) (output : RunwayOutput)
  | exn (msg : String)
deriving DecidableEq, Repr

/-- Poll budget of src/server.js line 621. -/
def maxAttempts : Nat := 60

/-- Result of the polling loop: whether `taskCompleted` was set, the
extracted video URL (absent when extraction failed), the final value of
the `attempts` counter, and the number of `retrieve` calls made. -/
structure PollRun where
  completed : Bool
  videoUrl : Option String
  attempts : Nat
  polls : Nat
deriving DecidableEq, Repr

/-- Embedding of the polling loop of src/server.js lines 627-700.
Each iteration makes one `retrieve` call.  A thrown `retrieve` error is
caught by the inner catch, which counts the attempt and continues.  A
success status sets `taskCompleted` and extracts the URL; a failed
extraction throws, but that throw is caught by the same inner catch
(one more attempt is counted) and the loop then exits because
`taskCompleted` is already true.  A FAILED/ERROR status throws
`Task failed: ...`, which is likewise caught by the inner catch, so the
loop keeps polling.  Any other status waits and continues.  The `fuel`
argument only bounds the recursion; since every iteration increases
`attempts` by at least one and the loop runs only while
`attempts < maxAttempts`, fuel `maxAttempts` is never exhausted before
the loop condition exits. -/
def pollLoopGo (oracle : Nat → PollOutcome) : Nat → Nat → Nat → PollRun
  | 0, attempts, polls => { completed := false, videoUrl := none, attempts := attempts, polls := polls }
  | fuel + 1, attempts, polls =>
    if attempts < maxAttempts then
      match oracle polls with
      | .exn _ => pollLoopGo oracle fuel (attempts + 1) (polls + 1)
      | .ok st _err out =>
        let s := normalizeStatus st
        if isSuccessStatus s then
          match extractVideoUrl out with
          | some u => { completed := true, videoUrl := some u, attempts := attempts + 1, polls := polls + 1 }
          | none => { completed := true, videoUrl := none, attempts := attempts + 2, polls := polls + 1 }
        else if isFailureStatus s then
          pollLoopGo oracle fuel (attempts + 2) (polls + 1)
        else
          pollLoopGo oracle fuel (attempts + 1) (polls + 1)
    else
      { completed := false, videoUrl := none, attempts := attempts, polls := polls }

/-- The polling loop started with zero attempts and zero polls. -/
def pollLoop (oracle : Nat → PollOutcome) : PollRun :=
  pollLoopGo oracle maxAttempts 0 0

/-- Timeout error message thrown at src/server.js line 705 when the loop
exits without `taskCompleted`. -/
def timeoutMessage (attempts secs : Nat) : String :=
  "Task timed out after " ++ toString attempts ++ " polling attempts (" ++ toString secs ++ "s)"

/-- Error message thrown at src/server.js line 683 on a provider-reported
failure; a missing or empty provider error becomes `Unknown error`. -/
def taskFailedMessage (providerError : Option String) : String :=
  "Task failed: " ++ (jsTruthy providerError).getD "Unknown error"

/-- Error message thrown at src/server.js line 581 when the SDK is not
initialised. -/
def sdkUnavailableMessage : String :=
  "Runway SDK is not available. Make sure the API key is set and the SDK is properly installed."

/-- Outcome of the is.gd call: a response with the optional `shorturl`
field, or a thrown error. -/
inductive ShortenOutcome where
  | ok (shorturl : Option String)
  | exn (msg : String)
deriving DecidableEq, Repr

/-- Embedding of `shortenUrl` of src/services/url-shortener-service.js
lines 16-51: the whole body is wrapped in try/catch, a truthy
`shorturl` field is returned, and every other outcome (throw, missing
field, falsy field) returns the original URL. -/
def shortenUrl (outcome : ShortenOutcome) (originalUrl : String) : String :=
  match outcome with
  | .exn _ => originalUrl
  | .ok su =>
    match jsTruthy su with
    | some s => s
    | none => originalUrl

/-- Embedding of the inline shortening step of src/server.js lines
742-772, which operates on the possibly-undefined `videoUrl` variable:
`shortUrl` starts as `videoUrl` and is replaced only by a truthy
`shorturl` response field. -/
def shortenStep (outcome : ShortenOutcome) (videoUrl : Option String) : Option String :=
  match outcome with
  | .exn _ => videoUrl
  | .ok su =>
    match jsTruthy su with
    | some s => some s
    | none => videoUrl

/-- Outcome of the `runway.imageToVideo.create` submission: the SDK may
be missing (src/server.js line 579), the call may throw, or it returns
a Runway task id. -/
inductive SubmitOutcome where
  | ok (runwayTaskId : String)
  | exn (msg : String)
  | sdkUnavailable
deriving DecidableEq, Repr

/-- Vehicle attributes fetched from the catalog (src/server.js lines
498-508). -/
structure VehicleData where
  id : String
  brand : String
  model : String
  year : Nat
  exteriorColorName : Option String
deriving DecidableEq, Repr

/-- Vehicle snapshot stored inside the task record (src/server.js lines
537-543): the colour falls back to `Unknown` when
`exteriorColorName` is falsy. -/
structure StoredVehicleData where
  id : String
  brand : String
  model : String
  year : Nat
  color : String
deriving DecidableEq, Repr

/-- Snapshot construction of src/server.js lines 537-543. -/
def snapshotVehicleData (v : VehicleData) : StoredVehicleData :=
  { id := v.id, brand := v.brand, model := v.model, year := v.year
    color := (jsTruthy v.exteriorColorName).getD "Unknown" }

/-- Task record held in the in-memory task map.  Fields that the JS code
leaves undefined until a later step are options; timestamps are natural
numbers (milliseconds). -/
structure VideoTask where
  vehicleId : String
  status : String
  createdAt : Nat
  vehicleData : StoredVehicleData
  runwayTaskId : Option String
  videoUrl : Option String
  originalVideoUrl : Option String
  completedAt : Option Nat
  vehicleUpdated : Option Bool
  error : Option String
deriving DecidableEq, Repr

/-- Task record as created by src/server.js lines 533-544 and by
`createVideoTask` of src/services/task-service.js lines 18-39: status
`processing`, creation time stamped, every later field absent. -/
def initialTask (vehicleId : String) (vd : VehicleData) (now : Nat) : VideoTask :=
  { vehicleId := vehicleId, status := "processing", createdAt := now
    vehicleData := snapshotVehicleData vd
    runwayTaskId := none, videoUrl := none, originalVideoUrl := none
    completedAt := none, vehicleUpdated := none, error := none }

/-- Failure update of src/server.js lines 867-880: the outer catch sets
only `status` and `error`; in particular it does not touch
`completedAt`. -/
def failTask (t : VideoTask) (msg : String) : VideoTask :=
  { t with status := "failed", error := some msg }

/-- Retry budget of the vehicle-update loop, src/server.js line 795. -/
def maxRetries : Nat := 3

/-- Embedding of the vehicle-update retry loop of src/server.js lines
802-854.  `ok k` tells whether the attempt with `retryCount = k`
succeeds.  Returns the final `updateSuccess` flag, the number of
attempts made, and the list of backoff delays actually awaited (in
milliseconds): after the failure that raises `retryCount` to `rc`, the
code waits `2 ^ rc * 1000` ms only when `rc < maxRetries`. -/
def updateRetryGo (ok : Nat → Bool) : Nat → Nat → Bool × Nat × List Nat
  | _retryCount, 0 => (false, 0, [])
  | retryCount, fuel + 1 =>
    if retryCount < maxRetries then
      if ok retryCount then (true, 1, [])
      else
        let rc := retryCount + 1
        if rc < maxRetries then
          let rest := updateRetryGo ok rc fuel
          (rest.1, rest.2.1 + 1, (2 ^ rc * 1000) :: rest.2.2)
        else
          (false, 1, [])
    else
      (false, 0, [])

/-- The vehicle-update retry loop started with `retryCount = 0`. -/
def updateRetryLoop (ok : Nat → Bool) : Bool × Nat × List Nat :=
  updateRetryGo ok 0 maxRetries

/-- Oracles for all external behaviour one background run depends on. -/
structure Env where
  submit : SubmitOutcome
  poll : Nat → PollOutcome
  shorten : ShortenOutcome
  updateOk : Nat → Bool
  completionTime : Nat
  elapsedSecs : Nat

/-- Observable result of one background pipeline run: the task record
snapshots in the order the task map sees them (the final record last),
together with the counters needed by the resource claims. -/
structure BackgroundRun where
  snapshots : List VideoTask
  final : VideoTask
  polls : Nat
  pollAttempts : Nat
  submitCalled : Bool
  updateSuccess : Bool
  updateAttempts : Nat
  updateDelays : List Nat
deriving DecidableEq, Repr

/-- Embedding of the background pipeline of src/server.js lines 555-881:
submission, polling loop, URL shortening, completion update,
vehicle-update retry loop, and the outer catch that marks the task
failed.  Snapshots are taken at the await boundaries where another
request could observe the task map: after creation, after the
submission update (lines 614-615), after the completion update (lines
776-780), after the vehicle-updated flag (line 827), and after the
failure update (lines 869-870). -/
def runBackground (env : Env) (t0 : VideoTask) : BackgroundRun :=
  match env.submit with
  | .sdkUnavailable =>
    let tf := failTask t0 sdkUnavailableMessage
    { snapshots := [t0, tf], final := tf, polls := 0, pollAttempts := 0
      submitCalled := false, updateSuccess := false, updateAttempts := 0, updateDelays := [] }
  | .exn msg =>
    let tf := failTask t0 msg
    { snapshots := [t0, tf], final := tf, polls := 0, pollAttempts := 0
      submitCalled := true, updateSuccess := false, updateAttempts := 0, updateDelays := [] }
  | .ok rid =>
    let t1 := { t0 with runwayTaskId := some rid, status := "processing_runway" }
    let run := pollLoop env.poll
    if run.completed then
      let orig := run.videoUrl
      let shortUrl := shortenStep env.shorten orig
      let t2 := { t1 with status := "completed", videoUrl := shortUrl
                          originalVideoUrl := orig, completedAt := some env.completionTime }
      let upd := updateRetryLoop env.updateOk
      let t3 := if upd.1 then { t2 with vehicleUpdated := some true } else t2
      { snapshots := [t0, t1, t2, t3], final := t3, polls := run.polls, pollAttempts := run.attempts
        submitCalled := true, updateSuccess := upd.1, updateAttempts := upd.2.1, updateDelays := upd.2.2 }
    else
      let tf := failTask t1 (timeoutMessage run.attempts env.elapsedSecs)
      { snapshots := [t0, t1, tf], final := tf, polls := run.polls, pollAttempts := run.attempts
        submitCalled := true, updateSuccess := false, updateAttempts := 0, updateDelays := [] }

/-- Gallery image as returned by the catalog (id and url). -/
structure Image where
  id : String
  url : String
deriving DecidableEq, Repr

/-- Synchronous response of the generate-video handler. -/
inductive GenerateResponse where
  | badRequest (error : String)
  | accepted (taskId : String) (vehicleId : String) (status : String) (message : String)
deriving DecidableEq, Repr

/-- Embedding of src/server.js lines 521-899 after the vehicle and
gallery fetches succeeded: an empty gallery is rejected with HTTP 400
before any task is created (lines 522-525); otherwise the task record
is created with id `Date.now().toString()` (lines 529-544), the
background pipeline is dispatched, and the handler answers
synchronously (lines 884-889). -/
def handleGenerateVideo (images : List Image) (vehicleId : String) (vd : VehicleData)
    (now : Nat) (env : Env) : GenerateResponse × Option BackgroundRun :=
  if images.isEmpty then
    (.badRequest "No images available for this vehicle", none)
  else
    let t0 := initialTask vehicleId vd now
    (.accepted (toString now) vehicleId "processing"
      "Video generation started. Use the /vehicle/video/:taskId endpoint to check status."
    , some (runBackground env t0))

/-- The in-memory task map, as an association list with JS `Map.set`
semantics. -/
def TaskStore := List (String × VideoTask)

/-- JS `Map.set`: replace in place when the key exists, append
otherwise. -/
def storeSet : TaskStore → String → VideoTask → TaskStore
  | [], k, v => [(k, v)]
  | (k1, v1) :: rest, k, v =>
    if k1 = k then (k, v) :: rest else (k1, v1) :: storeSet rest k v

/-- JS `Map.get`. -/
def storeGet : TaskStore → String → Option VideoTask
  | [], _ => none
  | (k1, v1) :: rest, k => if k1 = k then some v1 else storeGet rest k

/-- Number of entries of the store. -/
def storeSize (s : TaskStore) : Nat := List.length s

/-- Embedding of `createVideoTask` of src/services/task-service.js lines
18-39: the task id is `Date.now().toString()` and the record is stored
under that id with `Map.set`. -/
def createVideoTask (now : Nat) (vehicleId : String) (vd : VehicleData)
    (store : TaskStore) : String × TaskStore :=
  let taskId := toString now
  (taskId, storeSet store taskId (initialTask vehicleId vd now))

/-- Public task-status projection of `getTaskStatus`,
src/services/task-service.js lines 79-98 (the inline handler of
src/server.js lines 902-924 builds the same object). -/
structure TaskStatusView where
  taskId : String
  vehicleId : String
  status : String
  createdAt : Nat
  completedAt : Option Nat
  videoUrl : Option String
  originalVideoUrl : Option String
  runwayTaskId : Option String
  vehicleUpdated : Bool
  error : Option String
deriving DecidableEq, Repr

/-- Embedding of `getTaskStatus` of src/services/task-service.js lines
79-98: the two URL fields are exposed only when the status is
`completed`, and `vehicleUpdated` is reported as
`task.vehicleUpdated || false`. -/
def getTaskStatus (taskId : String) (t : VideoTask) : TaskStatusView :=
  { taskId := taskId, vehicleId := t.vehicleId, status := t.status
    createdAt := t.createdAt, completedAt := t.completedAt
    videoUrl := if t.status = "completed" then t.videoUrl else none
    originalVideoUrl := if t.status = "completed" then t.originalVideoUrl else none
    runwayTaskId := t.runwayTaskId
    vehicleUpdated := t.vehicleUpdated.getD false
    error := t.error }

/-- History-relevant fragment of a task record for the task service with
history persistence (src/unnamed/part_005): only the status decides
whether an update writes a history entry. -/
structure HistTask where
  status : String
deriving DecidableEq, Repr

/-- Partial update passed to `updateTask`; only the optional `status`
field is relevant to history writes. -/
structure UpdateData where
  status : Option String
deriving DecidableEq, Repr

/-- Terminal statuses per src/unnamed/part_005 lines 89-90. -/
def isTerminalStatus (s : String) : Bool :=
  s = "completed" || s = "failed"

/-- Embedding of `updateTask` of src/unnamed/part_005 lines 77-95: the
update is merged over the record, and `saveTaskToHistory` is called
exactly when the update sets status `completed` or `failed` while the
previous status was neither.  Returns the merged record and whether a
history entry was written. -/
def applyUpdate (t : HistTask) (u : UpdateData) : HistTask × Bool :=
  let merged : HistTask := { status := u.status.getD t.status }
  let writes := (u.status = some "completed" || u.status = some "failed")
                  && !(isTerminalStatus t.status)
  (merged, writes)

/-- Folds a sequence of updates over a task, counting history writes. -/
def applyUpdates (t : HistTask) : List UpdateData → HistTask × Nat
  | [] => (t, 0)
  | u :: us =>
    let step := applyUpdate t u
    let rest := applyUpdates step.1 us
    (rest.1, (if step.2 then 1 else 0) + rest.2)

/-- An update run is monotone when no update takes a terminal task back
to a non-terminal status (the orchestrator never does). -/
def monotoneRun (t : HistTask) : List UpdateData → Bool
  | [] => true
  | u :: us =>
    let t1 := (applyUpdate t u).1
    (!(isTerminalStatus t.status) || isTerminalStatus t1.status) && monotoneRun t1 us

/-- A shortening call failed when it threw or when its response carries
no truthy `shorturl` field; in both cases the original URL is kept. -/
def shortenFailed : ShortenOutcome → Bool
  | .exn _ => true
  | .ok su => (jsTruthy su).isNone

/-- A poll outcome is non-terminal when it is a thrown retrieve error or
a response whose normalized status is neither a success nor a failure
status; the loop then just counts the attempt and keeps going. -/
def nonTerminalOutcome : PollOutcome → Bool
  | .exn _ => true
  | .ok st _ _ =>
    !(isSuccessStatus (normalizeStatus st)) && !(isFailureStatus (normalizeStatus st))

/-- Numeric value of a decimal digit character. -/
def digitVal (c : Char) : Nat := c.toNat - 48

/-- Numeric value of a decimal string, most significant digit first;
used to relate the string task ids produced by `Date.now().toString()`
back to their creation timestamps. -/
def decimalValue (s : String) : Nat :=
  s.data.foldl (fun a c => 10 * a + digitVal c) 0

/-- Sample vehicle used by the concrete evaluations. -/
def sampleVehicle : VehicleData :=
  { id := "V1", brand := "Toyota", model := "Corolla", year := 2022
    exteriorColorName := some "Red" }

/-- Second sample vehicle, used to make overwrites observable. -/
def otherVehicle : VehicleData :=
  { id := "V2", brand := "Honda", model := "Civic", year := 2023
    exteriorColorName := none }

/-- Environment in which the provider reports status `FAILED` with error
message `boom` on every poll. -/
def envProviderAlwaysFailed : Env :=
  { submit := .ok "runway-1"
    poll := fun _ => .ok (some "FAILED") (some "boom") .null
    shorten := .exn "unused", updateOk := fun _ => false
    completionTime := 1000, elapsedSecs := 600 }

/-- Environment in which the Runway submission call throws. -/
def envSubmitError : Env :=
  { submit := .exn "Runway API error"
    poll := fun _ => .exn "unused"
    shorten := .exn "unused", updateOk := fun _ => false
    completionTime := 1000, elapsedSecs := 0 }

/-- Environment in which the first poll reports success but the output
matches none of the known shapes (the only field present is the falsy
empty string), the shortener call throws and every vehicle-update
attempt fails. -/
def envUnextractableOutput : Env :=
  { submit := .ok "runway-1"
    poll := fun _ => .ok (some "SUCCEEDED") none (.obj none (some "") none none)
    shorten := .exn "shortener down", updateOk := fun _ => false
    completionTime := 1000, elapsedSecs := 30 }

/-- Environment in which every poll call throws a network error, so no
terminal provider status is ever observed. -/
def envNeverTerminal : Env :=
  { submit := .ok "runway-1"
    poll := fun _ => .exn "ECONNRESET"
    shorten := .exn "unused", updateOk := fun _ => false
    completionTime := 1000, elapsedSecs := 600 }

/-- Environment in which the first poll succeeds with a nested
`urls.mp4` output, the shortener call throws and every vehicle-update
attempt fails. -/
def envSuccessShortenerDown : Env :=
  { submit := .ok "runway-1"
    poll := fun _ => .ok (some "SUCCEEDED") none (.obj (some "https://p/x.mp4") none none none)
    shorten := .exn "shortener down", updateOk := fun _ => false
    completionTime := 1000, elapsedSecs := 30 }

/-- Internal task record that is not completed but carries both video
URLs and no vehicle-updated flag; used to exercise the status-view
masking. -/
def maskedRecord : VideoTask :=
  { initialTask "V1" sampleVehicle 5 with
      status := "processing_runway"
      videoUrl := some "https://short/x"
      originalVideoUrl := some "https://provider/x.mp4" }

/-- Each loop iteration makes exactly one retrieve call, so the number
of polls is bounded by the fuel. -/
theorem pollLoopGo_polls_le (oracle : Nat → PollOutcome) :
    ∀ (f a p : Nat), (pollLoopGo oracle f a p).polls ≤ p + f := by
  intro f
  induction f with
  | zero => intro a p; simp [pollLoopGo]
  | succ f ih =>
    intro a p
    simp only [pollLoopGo]
    by_cases h : a < maxAttempts
    · simp only [if_pos h]
      cases oracle p with
      | exn msg => exact le_trans (ih (a + 1) (p + 1)) (by omega)
      | ok st err out =>
        by_cases hs : isSuccessStatus (normalizeStatus st)
        · simp only [hs, if_pos]
          cases extractVideoUrl out <;> simp
        · simp only [hs]
          by_cases hf : isFailureStatus (normalizeStatus st)
          · simp only [hf, if_neg, if_pos, Bool.false_eq_true, if_false]
            exact le_trans (ih (a + 2) (p + 1)) (by omega)
          · simp only [hf, Bool.false_eq_true, if_false]
            exact le_trans (ih (a + 1) (p + 1)) (by omega)
    · simp only [if_neg h]; omega

/-- The whole polling loop makes at most `maxAttempts` retrieve calls. -/
theorem pollLoop_polls_le (oracle : Nat → PollOutcome) :
    (pollLoop oracle).polls ≤ maxAttempts := by
  have := pollLoopGo_polls_le oracle maxAttempts 0 0
  simpa [pollLoop] using this

/-- When every poll outcome is non-terminal, the loop runs the attempt
counter exactly to `maxAttempts`, making one poll per attempt, and
exits without completion. -/
theorem pollLoopGo_nonTerminal (oracle : Nat → PollOutcome)
    (h : ∀ i, nonTerminalOutcome (oracle i) = true) :
    ∀ (f a p : Nat), a ≤ maxAttempts → maxAttempts - a ≤ f →
      pollLoopGo oracle f a p =
        { completed := false, videoUrl := none, attempts := maxAttempts
          polls := p + (maxAttempts - a) } := by
  intro f
  induction f with
  | zero =>
    intro a p ha hf
    have haeq : a = maxAttempts := by omega
    subst haeq
    simp [pollLoopGo]
  | succ f ih =>
    intro a p ha hf
    by_cases hlt : a < maxAttempts
    · have hstep : (p + 1) + (maxAttempts - (a + 1)) = p + (maxAttempts - a) := by omega
      simp only [pollLoopGo, if_pos hlt]
      cases hor : oracle p with
      | exn msg =>
        rw [ih (a + 1) (p + 1) (by omega) (by omega), hstep]
      | ok st err out =>
        have h1 : nonTerminalOutcome (.ok st err out) = true := hor ▸ h p
        simp only [nonTerminalOutcome, Bool.and_eq_true, Bool.not_eq_true'] at h1
        simp only [h1.1, h1.2, Bool.false_eq_true, if_false]
        rw [ih (a + 1) (p + 1) (by omega) (by omega), hstep]
    · have haeq : a = maxAttempts := by omega
      subst haeq
      simp [pollLoopGo]

/-- The vehicle-update retry loop has exactly four possible outcomes:
success on the first, second or third attempt, or failure after three
attempts; the awaited backoff delays are 2s and then 4s. -/
theorem updateRetryLoop_cases (ok : Nat → Bool) :
    updateRetryLoop ok = (true, 1, []) ∨
    updateRetryLoop ok = (true, 2, [2000]) ∨
    updateRetryLoop ok = (true, 3, [2000, 4000]) ∨
    updateRetryLoop ok = (false, 3, [2000, 4000]) := by
  by_cases h0 : ok 0 <;> by_cases h1 : ok 1 <;> by_cases h2 : ok 2 <;>
    simp [updateRetryLoop, updateRetryGo, maxRetries, h0, h1, h2]

/-- Starting from a terminal status, a monotone update run stays
terminal and never writes another history entry. -/
theorem applyUpdates_terminal (us : List UpdateData) :
    ∀ t : HistTask, isTerminalStatus t.status = true → monotoneRun t us = true →
      (applyUpdates t us).2 = 0 ∧
        isTerminalStatus (applyUpdates t us).1.status = true := by
  induction us with
  | nil => intro t ht _; simpa [applyUpdates] using ht
  | cons u us ih =>
    intro t ht hm
    simp only [monotoneRun, Bool.and_eq_true] at hm
    have ht1 : isTerminalStatus (applyUpdate t u).1.status = true := by
      have := hm.1
      simpa [ht] using this
    have hw : (applyUpdate t u).2 = false := by
      simp [applyUpdate, ht]
    have := ih (applyUpdate t u).1 ht1 hm.2
    simp [applyUpdates, hw, this.1, this.2]

/-- Starting from a non-terminal status, a monotone update run writes
exactly one history entry when it reaches a terminal status and none
otherwise. -/
theorem applyUpdates_count (us : List UpdateData) :
    ∀ t : HistTask, isTerminalStatus t.status = false → monotoneRun t us = true →
      (applyUpdates t us).2 =
        (if isTerminalStatus (applyUpdates t us).1.status then 1 else 0) := by
  induction us with
  | nil => intro t ht _; simp [applyUpdates, ht]
  | cons u us ih =>
    intro t ht hm
    simp only [monotoneRun, Bool.and_eq_true] at hm
    by_cases hterm : (u.status = some "completed" || u.status = some "failed") = true
    · have hw : (applyUpdate t u).2 = true := by
        simp [applyUpdate, hterm, ht]
      have ht1 : isTerminalStatus (applyUpdate t u).1.status = true := by
        rcases (by simpa using hterm : u.status = some "completed" ∨ u.status = some "failed") with h | h <;>
          simp [applyUpdate, h, isTerminalStatus]
      have hrest := applyUpdates_terminal us (applyUpdate t u).1 ht1 hm.2
      simp [applyUpdates, hw, hrest.1, hrest.2]
    · have hw : (applyUpdate t u).2 = false := by
        simp only [applyUpdate, Bool.and_eq_false_iff]
        exact Or.inl (by simpa using hterm)
      have ht1 : isTerminalStatus (applyUpdate t u).1.status = false := by
        cases hus : u.status with
        | none => simpa [applyUpdate, hus] using ht
        | some s =>
          have hne : ¬(s = "completed") ∧ ¬(s = "failed") := by
            constructor <;> intro hcon <;> subst hcon <;> simp [hus] at hterm
          simp [applyUpdate, hus, isTerminalStatus, hne.1, hne.2]
      simp [applyUpdates, hw, ih (applyUpdate t u).1 ht1 hm.2]

/-- Digit characters of digits below ten evaluate back to the digit. -/
theorem digitVal_digitChar : ∀ d : Nat, d < 10 → digitVal (Nat.digitChar d) = d := by decide

/-- Folding the decimal evaluation over the digit list produced by
`Nat.toDigitsCore` shifts the accumulator past the digits of `n` and
adds `n`. -/
theorem foldl_toDigitsCore :
    ∀ (f n acc : Nat) (l : List Char), n < 10 ^ f →
      ∃ k, 0 < k ∧ n < k ∧
        List.foldl (fun a c => 10 * a + digitVal c) acc (Nat.toDigitsCore 10 f n l)
          = List.foldl (fun a c => 10 * a + digitVal c) (acc * k + n) l := by
  intro f
  induction f with
  | zero =>
    intro n acc l hn
    have hn0 : n = 0 := by simpa using hn
    subst hn0
    exact ⟨1, by omega, by omega, by simp [Nat.toDigitsCore]⟩
  | succ f ih =>
    intro n acc l hn
    have hten : (0 : Nat) < 10 := by omega
    by_cases h10 : n / 10 = 0
    · have hnlt : n < 10 := by
        have := (Nat.div_eq_zero_iff hten).1 h10
        omega
      refine ⟨10, by omega, hnlt, ?_⟩
      simp only [Nat.toDigitsCore, h10, if_pos, List.foldl]
      rw [digitVal_digitChar (n % 10) (Nat.mod_lt n hten), Nat.mod_eq_of_lt hnlt]
      have harith : 10 * acc + n = acc * 10 + n := by ring
      rw [harith]
    · have hdiv : n / 10 < 10 ^ f := by
        have hmul : n < 10 ^ f * 10 := by
          have := pow_succ 10 f
          omega
        exact (Nat.div_lt_iff_lt_mul hten).2 hmul
      obtain ⟨k, hkpos, hnk, heq⟩ := ih (n / 10) acc (Nat.digitChar (n % 10) :: l) hdiv
      refine ⟨10 * k, by omega, ?_, ?_⟩
      · have hdm := Nat.div_add_mod n 10
        have hmod : n % 10 < 10 := Nat.mod_lt n hten
        omega
      · simp only [Nat.toDigitsCore, h10, if_neg, if_false]
        rw [heq]
        simp only [List.foldl]
        rw [digitVal_digitChar (n % 10) (Nat.mod_lt n hten)]
        have hdm := Nat.div_add_mod n 10
        have harith : 10 * (acc * k + n / 10) + n % 10 = acc * (10 * k) + n := by
          have hexp : 10 * (acc * k + n / 10) + n % 10
              = 10 * (acc * k) + (10 * (n / 10) + n % 10) := by ring
          rw [hexp, hdm]
          ring
        rw [harith]

/-- Decimal evaluation is a left inverse of the decimal rendering of a
natural number. -/
theorem decimalValue_toString (n : Nat) : decimalValue (toString n) = n := by
  have hlt : n < 10 ^ (n + 1) := by
    have h1 : n < 2 ^ n := Nat.lt_two_pow n
    have h2 : (2 : Nat) ^ n ≤ 2 ^ (n + 1) := Nat.pow_le_pow_right (by omega) (by omega)
    have h3 : (2 : Nat) ^ (n + 1) ≤ 10 ^ (n + 1) := Nat.pow_le_pow_left (by omega) (n + 1)
    omega
  obtain ⟨k, _, _, heq⟩ := foldl_toDigitsCore (n + 1) n 0 [] hlt
  have hshape : decimalValue (toString n)
      = List.foldl (fun a c => 10 * a + digitVal c) 0 (Nat.toDigitsCore 10 (n + 1) n []) := by
    rfl
  rw [hshape, heq]
  simp [List.foldl]

/-- Decimal renderings of distinct natural numbers are distinct. -/
theorem toString_nat_injective {m n : Nat} (h : toString m = toString n) : m = n := by
  have := congrArg decimalValue h
  rwa [decimalValue_toString, decimalValue_toString] at this

/-- Setting a key makes it retrievable with the stored value. -/
theorem storeGet_storeSet (st : TaskStore) (k : String) (v : VideoTask) :
    storeGet (storeSet st k v) k = some v := by
  induction st with
  | nil => simp [storeSet, storeGet]
  | cons hd tl ih =>
    obtain ⟨k1, v1⟩ := hd
    by_cases h : k1 = k <;> simp [storeSet, storeGet, h, ih]

/-- Setting the same key twice does not grow the store: the second set
replaces the entry the first one created. -/
theorem storeSize_storeSet_same (st : TaskStore) (k : String) (v1 v2 : VideoTask) :
    storeSize (storeSet (storeSet st k v1) k v2) = storeSize (storeSet st k v1) := by
  induction st with
  | nil => simp [storeSet, storeSize]
  | cons hd tl ih =>
    obtain ⟨k1, w1⟩ := hd
    by_cases h : k1 = k
    · simp [storeSet, storeSize, h]
    · simpa [storeSet, storeSize, h] using ih

/-- C1.  The spec claims that when a poll observes a provider-reported
FAILED/ERROR status the task immediately becomes failed with the
provider error message and no further polls happen.  In src/server.js
the `Task failed:` throw of the FAILED branch (line 683) is caught by
the inner catch of the same loop iteration (line 692), which counts the
attempt and keeps polling.  Evaluated with a provider that reports
FAILED with error `boom` from the first poll onwards: the loop makes 30
retrieve calls (29 after the first FAILED observation), exhausts the
60-attempt budget, and the task is failed with the generic timeout
message rather than the provider message. -/
theorem C1_provider_failure_swallowed_until_timeout :
    pollLoop envProviderAlwaysFailed.poll
      = { completed := false, videoUrl := none, attempts := 60, polls := 30 } ∧
    (runBackground envProviderAlwaysFailed (initialTask "V1" sampleVehicle 0)).final.status
      = "failed" ∧
    (runBackground envProviderAlwaysFailed (initialTask "V1" sampleVehicle 0)).final.error
      = some (timeoutMessage 60 600) ∧
    (runBackground envProviderAlwaysFailed (initialTask "V1" sampleVehicle 0)).final.error
      ≠ some (taskFailedMessage (some "boom")) ∧
    (runBackground envProviderAlwaysFailed (initialTask "V1" sampleVehicle 0)).polls = 30 := by
  refine ⟨by decide, by decide, by decide, by decide, by decide⟩

/-- C2 counterexample.  The claim says `completedAt` is set for every
terminal status, in particular for failed tasks.  When the Runway
submission throws, the outer catch of src/server.js lines 867-880 sets
only `status` and `error`, so the task is `failed` with `completedAt`
still absent. -/
theorem C2_counterexample :
    (runBackground envSubmitError (initialTask "V1" sampleVehicle 0)).final.status = "failed" ∧
    (runBackground envSubmitError (initialTask "V1" sampleVehicle 0)).final.completedAt = none := by
  exact ⟨by decide, by decide⟩

/-- C2 amended.  In every store snapshot of every background run,
`completedAt` is set exactly when the status is `completed`; failed
tasks and the two processing states carry no `completedAt`. -/
theorem C2_completedAt_iff_completed (env : Env) (vehicleId : String) (vd : VehicleData)
    (now : Nat) :
    ∀ t ∈ (runBackground env (initialTask vehicleId vd now)).snapshots,
      (t.completedAt.isSome = true ↔ t.status = "completed") := by
  intro t ht
  rcases hsub : env.submit with rid | msg | _ <;>
    simp only [runBackground, hsub] at ht
  · split at ht
    · simp only [List.mem_cons, List.not_mem_nil, or_false] at ht
      rcases ht with rfl | rfl | rfl | rfl
      · simp [initialTask]
      · simp [initialTask]
      · simp [initialTask]
      · split <;> simp [initialTask]
    · simp only [List.mem_cons, List.not_mem_nil, or_false] at ht
      rcases ht with rfl | rfl | rfl <;> simp [initialTask, failTask]
  · simp only [List.mem_cons, List.not_mem_nil, or_false] at ht
    rcases ht with rfl | rfl <;> simp [initialTask, failTask]
  · simp only [List.mem_cons, List.not_mem_nil, or_false] at ht
    rcases ht with rfl | rfl <;> simp [initialTask, failTask]

/-- C2 witness: the created record of a concrete failing run is a
snapshot, and the equivalence holds on it. -/
theorem C2_witness :
    initialTask "V1" sampleVehicle 0
        ∈ (runBackground envSubmitError (initialTask "V1" sampleVehicle 0)).snapshots ∧
    ((initialTask "V1" sampleVehicle 0).completedAt.isSome = true ↔
      (initialTask "V1" sampleVehicle 0).status = "completed") :=
  ⟨by decide, C2_completedAt_iff_completed envSubmitError "V1" sampleVehicle 0 _ (by decide)⟩

/-- C4 counterexample.  The claim says that for an empty photo gallery a
task exists and becomes failed.  The handler instead rejects the
request synchronously (src/server.js lines 522-525) before the task id
is even allocated: the response is the 400 error and no task or
background run exists. -/
theorem C4_counterexample :
    handleGenerateVideo [] "V1" sampleVehicle 1700000000000 envSuccessShortenerDown
      = (.badRequest "No images available for this vehicle", none) := by
  rfl

/-- C4 amended.  Every creation request with an empty gallery is
answered synchronously with the no-images error, no task record is
created, and no background pipeline (hence no provider call) is
dispatched. -/
theorem C4_empty_gallery_rejected_without_task (vehicleId : String) (vd : VehicleData)
    (now : Nat) (env : Env) :
    handleGenerateVideo [] vehicleId vd now env
      = (.badRequest "No images available for this vehicle", none) := by
  rfl

/-- C5.  The polling loop makes at most 60 retrieve calls, a poll whose
call threw still counts as an attempt, and when no poll outcome is
terminal the loop stops after exactly 60 polls and the task is failed
with the timeout message. -/
theorem C5_poll_budget (oracle : Nat → PollOutcome) (env : Env) (t0 : VideoTask)
    (rid : String) (hsub : env.submit = .ok rid)
    (hnt : ∀ i, nonTerminalOutcome (env.poll i) = true) :
    (pollLoop oracle).polls ≤ maxAttempts ∧
    (runBackground env t0).polls = maxAttempts ∧
    (runBackground env t0).pollAttempts = maxAttempts ∧
    (runBackground env t0).final.status = "failed" ∧
    (runBackground env t0).final.error
      = some (timeoutMessage maxAttempts env.elapsedSecs) := by
  have hrun : pollLoop env.poll
      = { completed := false, videoUrl := none, attempts := maxAttempts, polls := maxAttempts } := by
    have := pollLoopGo_nonTerminal env.poll hnt maxAttempts 0 0 (by omega) (by omega)
    simpa [pollLoop] using this
  refine ⟨pollLoop_polls_le oracle, ?_, ?_, ?_, ?_⟩ <;>
    simp [runBackground, hsub, hrun, failTask]

/-- C5 witness: the never-terminal environment satisfies the hypotheses
and exhibits the exact 60-poll timeout failure. -/
theorem C5_witness :
    envNeverTerminal.submit = .ok "runway-1" ∧
    (∀ i, nonTerminalOutcome (envNeverTerminal.poll i) = true) ∧
    ((pollLoop envNeverTerminal.poll).polls ≤ maxAttempts ∧
      (runBackground envNeverTerminal (initialTask "V1" sampleVehicle 0)).polls = maxAttempts ∧
      (runBackground envNeverTerminal (initialTask "V1" sampleVehicle 0)).pollAttempts = maxAttempts ∧
      (runBackground envNeverTerminal (initialTask "V1" sampleVehicle 0)).final.status = "failed" ∧
      (runBackground envNeverTerminal (initialTask "V1" sampleVehicle 0)).final.error
        = some (timeoutMessage maxAttempts envNeverTerminal.elapsedSecs)) :=
  ⟨rfl, fun _ => rfl,
    C5_poll_budget envNeverTerminal.poll envNeverTerminal
      (initialTask "V1" sampleVehicle 0) "runway-1" rfl (fun _ => rfl)⟩

/-- C3 counterexample.  The claim describes the fallback order as flat
field first, then nested fields, then the array, and says a task whose
output matches no shape is failed with an extraction error.  In the
code the array shape is tried first and the nested `urls.mp4` field
beats every flat field; and the extraction throw is caught by the
poll-loop catch, after which the already-set `taskCompleted` flag lets
the run fall through to the completion update: with an output whose
only field is a falsy empty `mp4` string the task ends `completed`
without any URL and without an error. -/
theorem C3_counterexample :
    extractVideoUrl (.obj (some "https://nested.mp4") none none (some "https://flat.mp4"))
      = some "https://nested.mp4" ∧
    (runBackground envUnextractableOutput (initialTask "V1" sampleVehicle 0)).final.status
      = "completed" ∧
    (runBackground envUnextractableOutput (initialTask "V1" sampleVehicle 0)).final.status
      ≠ "failed" ∧
    (runBackground envUnextractableOutput (initialTask "V1" sampleVehicle 0)).final.error
      = none ∧
    (runBackground envUnextractableOutput (initialTask "V1" sampleVehicle 0)).final.videoUrl
      = none := by
  refine ⟨by decide, by decide, by decide, by decide, by decide⟩

/-- C3 amended.  The extraction tries the shapes in the order: array
first, then the nested `urls.mp4` field, then the flat `mp4`, `video`,
`url` fields, then a bare string, stopping at the first truthy value;
and when no shape matches, the thrown extraction error is swallowed by
the poll-loop catch, so the run completes with no original URL and no
error instead of failing the task. -/
theorem C3_extraction_order_and_swallowed_error :
    (∀ (x : String) (xs : List String), extractVideoUrl (.arr (x :: xs)) = some x) ∧
    (∀ (mp4 video url : Option String) (s : String), s ≠ "" →
      extractVideoUrl (.obj (some s) mp4 video url) = some s) ∧
    (∀ (um video url : Option String) (s : String), jsTruthy um = none → s ≠ "" →
      extractVideoUrl (.obj um (some s) video url) = some s) ∧
    (∀ (um m url : Option String) (s : String),
      jsTruthy um = none → jsTruthy m = none → s ≠ "" →
      extractVideoUrl (.obj um m (some s) url) = some s) ∧
    (∀ (um m v : Option String) (s : String),
      jsTruthy um = none → jsTruthy m = none → jsTruthy v = none → s ≠ "" →
      extractVideoUrl (.obj um m v (some s)) = some s) ∧
    (∀ s : String, extractVideoUrl (.str s) = some s) ∧
    (∀ (env : Env) (t0 : VideoTask) (rid : String), env.submit = .ok rid →
      (pollLoop env.poll).completed = true → (pollLoop env.poll).videoUrl = none →
      ((runBackground env t0).final.status = "completed" ∧
        (runBackground env t0).final.originalVideoUrl = none ∧
        (runBackground env t0).final.error = t0.error)) := by
  refine ⟨?_, ?_, ?_, ?_, ?_, ?_, ?_⟩
  · intro x xs; rfl
  · intro mp4 video url s hs; simp [extractVideoUrl, jsTruthy, hs]
  · intro um video url s hum hs
    simp only [extractVideoUrl, hum]
    simp [jsTruthy, hs]
  · intro um m url s hum hm hs
    simp only [extractVideoUrl, hum, hm]
    simp [jsTruthy, hs]
  · intro um m v s hum hm hv hs
    simp only [extractVideoUrl, hum, hm, hv]
    simp [jsTruthy, hs]
  · intro s; rfl
  · intro env t0 rid hsub hc hv
    rcases hpl : pollLoop env.poll with ⟨c, v, a, p⟩
    rw [hpl] at hc hv
    simp only at hc hv
    subst hc
    subst hv
    refine ⟨?_, ?_, ?_⟩ <;>
      simp only [runBackground, hsub, hpl, if_true] <;>
      split <;> simp [shortenStep]

/-- C3 witness: the unextractable-output environment satisfies the
hypotheses of the pipeline clause. -/
theorem C3_witness :
    envUnextractableOutput.submit = .ok "runway-1" ∧
    (pollLoop envUnextractableOutput.poll).completed = true ∧
    (pollLoop envUnextractableOutput.poll).videoUrl = none ∧
    ((runBackground envUnextractableOutput (initialTask "V2" otherVehicle 7)).final.status
        = "completed" ∧
      (runBackground envUnextractableOutput (initialTask "V2" otherVehicle 7)).final.originalVideoUrl
        = none ∧
      (runBackground envUnextractableOutput (initialTask "V2" otherVehicle 7)).final.error
        = (initialTask "V2" otherVehicle 7).error) :=
  ⟨rfl, by decide, by decide,
    C3_extraction_order_and_swallowed_error.2.2.2.2.2.2 envUnextractableOutput
      (initialTask "V2" otherVehicle 7) "runway-1" rfl (by decide) (by decide)⟩


/-- When the submission succeeded and the poll loop completed, the final
task record is the completion update, with the vehicle-updated flag set
exactly when the retry loop succeeded. -/
theorem runBackground_final_completed (env : Env) (t0 : VideoTask) (rid : String)
    (hsub : env.submit = .ok rid) (hc : (pollLoop env.poll).completed = true) :
    (runBackground env t0).final
      = (if (updateRetryLoop env.updateOk).1 then
          { t0 with runwayTaskId := some rid, status := "completed"
                    videoUrl := shortenStep env.shorten (pollLoop env.poll).videoUrl
                    originalVideoUrl := (pollLoop env.poll).videoUrl
                    completedAt := some env.completionTime
                    vehicleUpdated := some true }
        else
          { t0 with runwayTaskId := some rid, status := "completed"
                    videoUrl := shortenStep env.shorten (pollLoop env.poll).videoUrl
                    originalVideoUrl := (pollLoop env.poll).videoUrl
                    completedAt := some env.completionTime }) := by
  rcases hpl : pollLoop env.poll with ⟨c, v, a, p⟩
  rw [hpl] at hc
  simp only at hc
  subst hc
  simp [runBackground, hsub, hpl]

/-- When the submission succeeded and the poll loop completed, the
update counters of the run are those of the retry loop. -/
theorem runBackground_updateInfo_completed (env : Env) (t0 : VideoTask) (rid : String)
    (hsub : env.submit = .ok rid) (hc : (pollLoop env.poll).completed = true) :
    (runBackground env t0).updateSuccess = (updateRetryLoop env.updateOk).1 ∧
    (runBackground env t0).updateAttempts = (updateRetryLoop env.updateOk).2.1 ∧
    (runBackground env t0).updateDelays = (updateRetryLoop env.updateOk).2.2 := by
  rcases hpl : pollLoop env.poll with ⟨c, v, a, p⟩
  rw [hpl] at hc
  simp only at hc
  subst hc
  refine ⟨?_, ?_, ?_⟩ <;> simp [runBackground, hsub, hpl]

/-- C6 counterexample.  The claim asserts backoff delays of 2s, 4s and
8s between attempts.  There are at most 3 attempts, so at most two
gaps exist: even the run in which every attempt fails waits only 2s
and then 4s; no 8s delay ever occurs (after the third failure
`retryCount` equals `maxRetries` and the code skips the wait). -/
theorem C6_counterexample :
    updateRetryLoop (fun _ => false) = (false, 3, [2000, 4000]) ∧
    8000 ∉ (updateRetryLoop (fun _ => false)).2.2 ∧
    (runBackground envSuccessShortenerDown (initialTask "V1" sampleVehicle 0)).updateDelays
      = [2000, 4000] ∧
    (runBackground envSuccessShortenerDown (initialTask "V1" sampleVehicle 0)).final.status
      = "completed" := by
  refine ⟨by decide, by decide, by decide, by decide⟩

/-- C6 amended.  The vehicle-update step makes at most 3 attempts with
backoff delays of 2s and then 4s between consecutive attempts; if all
attempts fail the task stays `completed` and the vehicle-updated flag
is left unset (the status view then reports it as false); any
successful attempt sets the flag to true. -/
theorem C6_update_retry_bounded (env : Env) (t0 : VideoTask) (rid tid : String)
    (hsub : env.submit = .ok rid) (hc : (pollLoop env.poll).completed = true) :
    (runBackground env t0).final.status = "completed" ∧
    (runBackground env t0).updateAttempts ≤ maxRetries ∧
    ((runBackground env t0).updateDelays = [] ∨
      (runBackground env t0).updateDelays = [2000] ∨
      (runBackground env t0).updateDelays = [2000, 4000]) ∧
    ((runBackground env t0).updateSuccess = true →
      (runBackground env t0).final.vehicleUpdated = some true) ∧
    ((runBackground env t0).updateSuccess = false →
      (runBackground env t0).final.vehicleUpdated = t0.vehicleUpdated) ∧
    ((runBackground env t0).updateSuccess = false → t0.vehicleUpdated = none →
      (getTaskStatus tid (runBackground env t0).final).vehicleUpdated = false) := by
  have hfin := runBackground_final_completed env t0 rid hsub hc
  obtain ⟨hs, ha, hd⟩ := runBackground_updateInfo_completed env t0 rid hsub hc
  refine ⟨?_, ?_, ?_, ?_, ?_, ?_⟩
  · rw [hfin]; split <;> rfl
  · rw [ha]
    rcases updateRetryLoop_cases env.updateOk with hu | hu | hu | hu <;>
      simp [hu, maxRetries]
  · rw [hd]
    rcases updateRetryLoop_cases env.updateOk with hu | hu | hu | hu <;>
      simp [hu]
  · intro hsucc
    rw [hs] at hsucc
    rw [hfin, if_pos hsucc]
  · intro hsucc
    rw [hs] at hsucc
    rw [hfin, if_neg (by simp [hsucc])]
  · intro hsucc hnone
    rw [hs] at hsucc
    rw [hfin, if_neg (by simp [hsucc])]
    simp [getTaskStatus, hnone]

/-- C6 witness: with every update attempt failing, the completed task
keeps an unset flag that the status view reports as false, after 2s
and 4s delays. -/
theorem C6_witness :
    envSuccessShortenerDown.submit = .ok "runway-1" ∧
    (pollLoop envSuccessShortenerDown.poll).completed = true ∧
    ((runBackground envSuccessShortenerDown (initialTask "V1" sampleVehicle 0)).final.status
        = "completed" ∧
      (runBackground envSuccessShortenerDown (initialTask "V1" sampleVehicle 0)).updateAttempts
        ≤ maxRetries ∧
      ((runBackground envSuccessShortenerDown (initialTask "V1" sampleVehicle 0)).updateDelays = [] ∨
        (runBackground envSuccessShortenerDown (initialTask "V1" sampleVehicle 0)).updateDelays
          = [2000] ∨
        (runBackground envSuccessShortenerDown (initialTask "V1" sampleVehicle 0)).updateDelays
          = [2000, 4000]) ∧
      ((runBackground envSuccessShortenerDown (initialTask "V1" sampleVehicle 0)).updateSuccess = true →
        (runBackground envSuccessShortenerDown (initialTask "V1" sampleVehicle 0)).final.vehicleUpdated
          = some true) ∧
      ((runBackground envSuccessShortenerDown (initialTask "V1" sampleVehicle 0)).updateSuccess = false →
        (runBackground envSuccessShortenerDown (initialTask "V1" sampleVehicle 0)).final.vehicleUpdated
          = (initialTask "V1" sampleVehicle 0).vehicleUpdated) ∧
      ((runBackground envSuccessShortenerDown (initialTask "V1" sampleVehicle 0)).updateSuccess = false →
        (initialTask "V1" sampleVehicle 0).vehicleUpdated = none →
        (getTaskStatus "42" (runBackground envSuccessShortenerDown
            (initialTask "V1" sampleVehicle 0)).final).vehicleUpdated = false)) :=
  ⟨rfl, by decide,
    C6_update_retry_bounded envSuccessShortenerDown (initialTask "V1" sampleVehicle 0)
      "runway-1" "42" rfl (by decide)⟩

/-- C7.  The URL-shortening step is total and best-effort: a thrown
call, a response without the `shorturl` field and a falsy `shorturl`
all return the original URL unchanged, and in the pipeline a completed
run whose shortening failed ends with `videoUrl` equal to
`originalVideoUrl`; the shortening outcome never changes the
`completed` status of the task. -/
theorem C7_shortening_best_effort :
    (∀ (msg orig : String), shortenUrl (.exn msg) orig = orig) ∧
    (∀ orig : String, shortenUrl (.ok none) orig = orig) ∧
    (∀ orig : String, shortenUrl (.ok (some "")) orig = orig) ∧
    (∀ (out : ShortenOutcome) (orig : String),
      shortenFailed out = true → shortenUrl out orig = orig) ∧
    (∀ (env : Env) (t0 : VideoTask) (rid u : String), env.submit = .ok rid →
      (pollLoop env.poll).completed = true → (pollLoop env.poll).videoUrl = some u →
      shortenFailed env.shorten = true →
      ((runBackground env t0).final.status = "completed" ∧
        (runBackground env t0).final.videoUrl = some u ∧
        (runBackground env t0).final.originalVideoUrl = some u ∧
        (runBackground env t0).final.videoUrl
          = (runBackground env t0).final.originalVideoUrl)) ∧
    (∀ (env : Env) (t0 : VideoTask) (rid : String), env.submit = .ok rid →
      (pollLoop env.poll).completed = true →
      (runBackground env t0).final.status = "completed") := by
  refine ⟨fun msg orig => rfl, fun orig => rfl, fun orig => rfl, ?_, ?_, ?_⟩
  · intro out orig hfail
    cases out with
    | exn msg => rfl
    | ok su =>
      simp only [shortenFailed, Option.isNone_iff_eq_none] at hfail
      simp [shortenUrl, hfail]
  · intro env t0 rid u hsub hc hv hfail
    have hstep : shortenStep env.shorten (some u) = some u := by
      cases hout : env.shorten with
      | exn msg => rfl
      | ok su =>
        rw [hout] at hfail
        simp only [shortenFailed, Option.isNone_iff_eq_none] at hfail
        simp [shortenStep, hfail]
    have hfin := runBackground_final_completed env t0 rid hsub hc
    rw [hv, hstep] at hfin
    refine ⟨?_, ?_, ?_, ?_⟩ <;> rw [hfin] <;> split <;> rfl
  · intro env t0 rid hsub hc
    rw [runBackground_final_completed env t0 rid hsub hc]
    split <;> rfl

/-- C7 witness: with the shortener throwing and the first poll
succeeding, the completed task has videoUrl equal to the original
provider URL. -/
theorem C7_witness :
    envSuccessShortenerDown.submit = .ok "runway-1" ∧
    (pollLoop envSuccessShortenerDown.poll).completed = true ∧
    (pollLoop envSuccessShortenerDown.poll).videoUrl = some "https://p/x.mp4" ∧
    shortenFailed envSuccessShortenerDown.shorten = true ∧
    ((runBackground envSuccessShortenerDown (initialTask "V2" otherVehicle 9)).final.status
        = "completed" ∧
      (runBackground envSuccessShortenerDown (initialTask "V2" otherVehicle 9)).final.videoUrl
        = some "https://p/x.mp4" ∧
      (runBackground envSuccessShortenerDown (initialTask "V2" otherVehicle 9)).final.originalVideoUrl
        = some "https://p/x.mp4" ∧
      (runBackground envSuccessShortenerDown (initialTask "V2" otherVehicle 9)).final.videoUrl
        = (runBackground envSuccessShortenerDown
            (initialTask "V2" otherVehicle 9)).final.originalVideoUrl) :=
  ⟨rfl, by decide, by decide, rfl,
    (C7_shortening_best_effort.2.2.2.2.1) envSuccessShortenerDown (initialTask "V2" otherVehicle 9)
      "runway-1" "https://p/x.mp4" rfl (by decide) (by decide) rfl⟩

/-- C8.  Along any monotone update run starting from a non-terminal
status, exactly one history entry is written when the task reaches a
terminal status and none otherwise; and once the task is terminal, no
later update can write another entry. -/
theorem C8_single_history_entry (t : HistTask) (us : List UpdateData)
    (hnt : isTerminalStatus t.status = false) (hm : monotoneRun t us = true) :
    ((applyUpdates t us).2
        = (if isTerminalStatus (applyUpdates t us).1.status then 1 else 0)) ∧
    (∀ u : UpdateData, isTerminalStatus (applyUpdates t us).1.status = true →
      (applyUpdate (applyUpdates t us).1 u).2 = false) := by
  refine ⟨applyUpdates_count us t hnt hm, ?_⟩
  intro u hterm
  simp [applyUpdate, hterm]

/-- C8 witness: the canonical lifecycle (processing, provider
processing, completed) writes exactly one entry, and a further update
on the terminal task writes none. -/
theorem C8_witness :
    isTerminalStatus (HistTask.mk "processing").status = false ∧
    monotoneRun (HistTask.mk "processing")
      [UpdateData.mk (some "processing_runway"), UpdateData.mk (some "completed"),
        UpdateData.mk none] = true ∧
    ((applyUpdates (HistTask.mk "processing")
        [UpdateData.mk (some "processing_runway"), UpdateData.mk (some "completed"),
          UpdateData.mk none]).2
      = (if isTerminalStatus (applyUpdates (HistTask.mk "processing")
            [UpdateData.mk (some "processing_runway"), UpdateData.mk (some "completed"),
              UpdateData.mk none]).1.status then 1 else 0)) ∧
    (∀ u : UpdateData,
      isTerminalStatus (applyUpdates (HistTask.mk "processing")
        [UpdateData.mk (some "processing_runway"), UpdateData.mk (some "completed"),
          UpdateData.mk none]).1.status = true →
      (applyUpdate (applyUpdates (HistTask.mk "processing")
        [UpdateData.mk (some "processing_runway"), UpdateData.mk (some "completed"),
          UpdateData.mk none]).1 u).2 = false) :=
  ⟨by decide, by decide,
    (C8_single_history_entry (HistTask.mk "processing") _ (by decide) (by decide)).1,
    (C8_single_history_entry (HistTask.mk "processing") _ (by decide) (by decide)).2⟩

/-- C9 counterexample.  The claim says task ids of distinct creation
calls are always distinct and never overwrite.  Two creations within
the same millisecond receive the same id `Date.now().toString()`: the
second call returns the id of the first and its record replaces the
first record, leaving a single entry in the store. -/
theorem C9_counterexample :
    (createVideoTask 1700000000000 "V2" otherVehicle
        (createVideoTask 1700000000000 "V1" sampleVehicle []).2).1
      = (createVideoTask 1700000000000 "V1" sampleVehicle []).1 ∧
    storeSize (createVideoTask 1700000000000 "V2" otherVehicle
        (createVideoTask 1700000000000 "V1" sampleVehicle []).2).2 = 1 ∧
    storeGet (createVideoTask 1700000000000 "V2" otherVehicle
          (createVideoTask 1700000000000 "V1" sampleVehicle []).2).2
        (createVideoTask 1700000000000 "V1" sampleVehicle []).1
      = some (initialTask "V2" otherVehicle 1700000000000) := by
  refine ⟨by decide, by decide, by decide⟩

/-- C9 amended.  The task id is the decimal rendering of the creation
millisecond: its numeric value is the creation time (so ids sort in
creation order when compared numerically), creations at distinct
milliseconds receive distinct ids, and two creations within the same
millisecond share one id, the second record overwriting the first
without growing the store. -/
theorem C9_taskId_from_timestamp :
    (∀ (now : Nat) (vid : String) (vd : VehicleData) (st : TaskStore),
      decimalValue (createVideoTask now vid vd st).1 = now) ∧
    (∀ (n m : Nat) (v1 v2 : String) (d1 d2 : VehicleData) (s1 s2 : TaskStore),
      n ≠ m → (createVideoTask n v1 d1 s1).1 ≠ (createVideoTask m v2 d2 s2).1) ∧
    (∀ (now : Nat) (v1 v2 : String) (d1 d2 : VehicleData) (st : TaskStore),
      (createVideoTask now v2 d2 (createVideoTask now v1 d1 st).2).1
          = (createVideoTask now v1 d1 st).1 ∧
        storeGet (createVideoTask now v2 d2 (createVideoTask now v1 d1 st).2).2
            (createVideoTask now v1 d1 st).1
          = some (initialTask v2 d2 now) ∧
        storeSize (createVideoTask now v2 d2 (createVideoTask now v1 d1 st).2).2
          = storeSize (createVideoTask now v1 d1 st).2) := by
  refine ⟨?_, ?_, ?_⟩
  · intro now vid vd st
    exact decimalValue_toString now
  · intro n m v1 v2 d1 d2 s1 s2 hne h
    exact hne (toString_nat_injective h)
  · intro now v1 v2 d1 d2 st
    refine ⟨rfl, ?_, ?_⟩
    · exact storeGet_storeSet (createVideoTask now v1 d1 st).2 (toString now)
        (initialTask v2 d2 now)
    · exact storeSize_storeSet_same st (toString now) (initialTask v1 d1 now)
        (initialTask v2 d2 now)

/-- C9 witness: consecutive milliseconds produce distinct ids. -/
theorem C9_witness :
    (1700000000000 : Nat) ≠ 1700000000001 ∧
    (createVideoTask 1700000000000 "V1" sampleVehicle []).1
      ≠ (createVideoTask 1700000000001 "V1" sampleVehicle []).1 :=
  ⟨by decide,
    C9_taskId_from_timestamp.2.1 1700000000000 1700000000001 "V1" "V1"
      sampleVehicle sampleVehicle [] [] (by decide)⟩

/-- C10.  The public status view masks the URLs of every record whose
status is not `completed` even when they are set internally, and
reports an unset vehicle-updated flag as false. -/
theorem C10_status_view_masks (tid : String) (t : VideoTask) :
    (t.status ≠ "completed" →
      (getTaskStatus tid t).videoUrl = none ∧
        (getTaskStatus tid t).originalVideoUrl = none) ∧
    (t.vehicleUpdated = none → (getTaskStatus tid t).vehicleUpdated = false) := by
  constructor
  · intro h
    constructor <;> simp [getTaskStatus, h]
  · intro h
    simp [getTaskStatus, h]

/-- C10 witness: a provider-processing record with both URLs set
internally exposes neither, and reports the unset flag as false. -/
theorem C10_witness :
    maskedRecord.status ≠ "completed" ∧
    maskedRecord.vehicleUpdated = none ∧
    maskedRecord.videoUrl = some "https://short/x" ∧
    ((getTaskStatus "123" maskedRecord).videoUrl = none ∧
      (getTaskStatus "123" maskedRecord).originalVideoUrl = none) ∧
    (getTaskStatus "123" maskedRecord).vehicleUpdated = false :=
  ⟨by decide, by decide, by decide,
    (C10_status_view_masks "123" maskedRecord).1 (by decide),
    (C10_status_view_masks "123" maskedRecord).2 (by decide)⟩
